import Mathlib

/-!
Shallow embedding of `courtlistener_server.py`: a small MCP server proxying the
CourtListener REST API.  Upstream JSON payloads are modelled by `JsonVal`;
Python truthiness, `dict.get`, `x or y` and `int(...)` are modelled by the
`truthy`/`pyGet`/`pythonOrD`/`pyInt` helpers.  The resilient request client
`_request_json` is modelled at attempt granularity over an abstract trace of
per-attempt outcomes; the four tool handlers are modelled as pure functions
parametrised by an `Upstream` oracle standing for `_get_json`, and additionally
return the number of upstream requests they issue.
-/

/-- JSON values as delivered by the upstream API (numbers restricted to
integers; the claims never exercise fractional payloads). -/
inductive JsonVal where
  | null : JsonVal
  | bool (b : Bool) : JsonVal
  | num (n : Int) : JsonVal
  | str (s : String) : JsonVal
  | arr (xs : List JsonVal) : JsonVal
  | obj (fields : List (String × JsonVal)) : JsonVal

/-- Python truthiness of a JSON value (`None`, `False`, `0`, `""`, `[]`, and
an empty dict are falsy). -/
def truthy : JsonVal → Bool
  | .null => false
  | .bool b => b
  | .num n => n != 0
  | .str s => s != ""
  | .arr xs => !xs.isEmpty
  | .obj fs => !fs.isEmpty

/-- Python `d.get(k)` on a parsed JSON dict: `None` (here `none`) when the key
is absent or the value is not a dict.  JSON dicts have unique keys, so the
first binding is the binding. -/
def pyGet : JsonVal → String → Option JsonVal
  | .obj fs, k => fs.lookup k
  | _, _ => none

/-- Python `d.get(k, default)`. -/
def pyGetD (v : JsonVal) (k : String) (d : JsonVal) : JsonVal :=
  (pyGet v k).getD d

/-- Python `d.get(k) or default`: the value when present and truthy, else the
default. -/
def pythonOrD (a : Option JsonVal) (d : JsonVal) : JsonVal :=
  match a with
  | some v => if truthy v then v else d
  | none => d

/-- Python `d.get(k) or None`: the value when present and truthy, else `None`. -/
def pythonOrOpt (a : Option JsonVal) : Option JsonVal :=
  match a with
  | some v => if truthy v then some v else none
  | none => none

/-- Python `s.strip()`: drop leading and trailing whitespace.  (Defined over
the character list so that it evaluates by kernel reduction; `String.trim`
does not.) -/
def pyStrip (s : String) : String :=
  (((s.toList.dropWhile Char.isWhitespace).reverse.dropWhile Char.isWhitespace).reverse).asString

/-- Python `int(x)` on a JSON value: ints pass through, bools map to 0/1,
strings are parsed (after stripping whitespace), anything else raises. -/
def pyInt : JsonVal → Except String Int
  | .num n => .ok n
  | .bool b => .ok (if b then 1 else 0)
  | .str s =>
      match (pyStrip s).toInt? with
      | some n => .ok n
      | none => .error ("invalid literal for int() with base 10: " ++ s)
  | _ => .error "int() argument must be a string or a number"

/-- The elements iterated over when the code loops over a JSON value.  The
handlers only ever loop over JSON arrays; iterating a truthy non-list would
behave differently in Python (e.g. a string iterates its characters), but no
upstream field exercised by the claims is of that shape. -/
def jsonElems : JsonVal → List JsonVal
  | .arr xs => xs
  | _ => []

/-- View a fetched JSON field as the `Optional[str]` the Python code treats it
as: JSON strings pass through, JSON `null` (and an absent key) become `None`.
A non-string truthy value here would raise `TypeError` inside `re.search` in
Python; the claims never exercise that shape. -/
def jsonAsOptStr : Option JsonVal → Option String
  | some (.str s) => some s
  | _ => none

mutual

/-- Python `repr` of a JSON value (approximating string escaping by the
identity, which is exact for the URL-shaped strings the code handles). -/
def pyRepr : JsonVal → String
  | .null => "None"
  | .bool true => "True"
  | .bool false => "False"
  | .num n => toString n
  | .str s => "'" ++ s ++ "'"
  | .arr xs => "[" ++ String.intercalate ", " (pyReprList xs) ++ "]"
  | .obj fs => "\x7b" ++ String.intercalate ", " (pyReprFields fs) ++ "\x7d"

/-- Python `repr` of each element of a JSON array. -/
def pyReprList : List JsonVal → List String
  | [] => []
  | x :: xs => pyRepr x :: pyReprList xs

/-- Python `repr` of each binding of a JSON dict. -/
def pyReprFields : List (String × JsonVal) → List String
  | [] => []
  | (k, v) :: fs => ("'" ++ k ++ "': " ++ pyRepr v) :: pyReprFields fs

end

/-- Python `str(x)`: strings pass through, everything else via `repr`. -/
def pyStr : JsonVal → String
  | .str s => s
  | v => pyRepr v

/-- Decimal digits to a natural number, as `int(...)` reads a digit group. -/
def digitsToNat (ds : List Char) : Nat :=
  ds.foldl (fun n c => n * 10 + (c.toNat - '0'.toNat)) 0

/-- Substring containment (used to state what an error message embeds). -/
def strContains (hay needle : String) : Bool :=
  (List.range (hay.toList.length + 1)).any
    (fun i => needle.toList.isPrefixOf (hay.toList.drop i))

def API_BASE : String := "https://www.courtlistener.com/api/rest/v4"

def SEARCH_ENDPOINT : String := API_BASE ++ "/search/"

def CLUSTERS_ENDPOINT : String := API_BASE ++ "/clusters"

def OPINIONS_ENDPOINT : String := API_BASE ++ "/opinions"

def RETRYABLE_STATUS_CODES : List Nat := [429, 500, 502, 503, 504]

def MAX_REQUEST_RETRIES : Nat := 3

/-- What one upstream attempt inside `_request_json` can produce: a parsed
JSON body (2xx), an `httpx.HTTPStatusError` carrying the response status and
body text, or an `httpx.RequestError` (transport-level failure) carrying its
message. -/
inductive Outcome where
  | success (body : JsonVal) : Outcome
  | httpStatus (status : Nat) (text : String) : Outcome
  | transportError (msg : String) : Outcome

/-- How `_request_json` finishes: the parsed JSON on success, or one of its
four `raise` sites. -/
inductive ReqResult where
  | ok (body : JsonVal) : ReqResult
  | httpError (status : Nat) (text : String) : ReqResult
  | requestError (msg : String) : ReqResult
  | failedAfterRetries (last : Outcome) : ReqResult
  | failedUnknown : ReqResult

/-- Rendering of the exception stored in `last_error` (only reachable from the
post-loop raise, which is proved unreachable below, so the precise text is
immaterial). -/
def lastErrorStr : Outcome → String
  | .success _ => ""
  | .httpStatus status text => "HTTP error " ++ toString status ++ ": " ++ text
  | .transportError msg => msg

/-- Python `text[:500]`-style slicing, over the character list so that it
evaluates by kernel reduction (`String.take` does not). -/
def pyTake (s : String) (n : Nat) : String :=
  (s.toList.take n).asString

/-- The message of the `RuntimeError` raised by `_request_json`, mirroring the
f-strings in the source (`e.response.text[:500]` truncates the body). -/
def _error_message : ReqResult → Option String
  | .ok _ => none
  | .httpError status text =>
      some ("CourtListener HTTP error " ++ toString status ++ ": " ++ pyTake text 500)
  | .requestError msg => some ("CourtListener request error: " ++ msg)
  | .failedAfterRetries last =>
      some ("CourtListener request failed after retries: " ++ lastErrorStr last)
  | .failedUnknown => some "CourtListener request failed for unknown reasons"

/-- The `for attempt in range(1, MAX_REQUEST_RETRIES + 1)` loop of
`_request_json`.  `fuel` is the number of loop iterations left, `attempt` the
Python loop variable, `lastError` the `last_error` local.  Returns the result,
the number of upstream attempts actually made, and the list of backoff delays
(in seconds, `0.5 * attempt`) slept between attempts. -/
def _request_loop (trace : Nat → Outcome) :
    Nat → Nat → Option Outcome → ReqResult × Nat × List ℚ
  | _, 0, lastError =>
      match lastError with
      | some e => (.failedAfterRetries e, 0, [])
      | none => (.failedUnknown, 0, [])
  | attempt, fuel + 1, _ =>
      match trace attempt with
      | .success body => (.ok body, 1, [])
      | .httpStatus status text =>
          if status ∈ RETRYABLE_STATUS_CODES ∧ attempt < MAX_REQUEST_RETRIES then
            let rest := _request_loop trace (attempt + 1) fuel (some (.httpStatus status text))
            (rest.1, rest.2.1 + 1, ((attempt : ℚ) / 2) :: rest.2.2)
          else
            (.httpError status text, 1, [])
      | .transportError msg =>
          if attempt < MAX_REQUEST_RETRIES then
            let rest := _request_loop trace (attempt + 1) fuel (some (.transportError msg))
            (rest.1, rest.2.1 + 1, ((attempt : ℚ) / 2) :: rest.2.2)
          else
            (.requestError msg, 1, [])

/-- `_request_json(method, url, ...)`, abstracted over the trace of per-attempt
outcomes the network produces.  The URL participates only in logging and in
messages that never include it. -/
def _request_json (_url : String) (trace : Nat → Outcome) : ReqResult × Nat × List ℚ :=
  _request_loop trace 1 MAX_REQUEST_RETRIES none

/-- An attempt outcome on which the loop is willing to retry (when attempts
remain): a transport error, or a retryable HTTP status. -/
def retryable_outcome : Outcome → Prop
  | .success _ => False
  | .httpStatus status _ => status ∈ RETRYABLE_STATUS_CODES
  | .transportError _ => True

example : _request_json "u" (fun _ => .httpStatus 503 "busy") =
    (.httpError 503 "busy", 3, [(1 : ℚ)/2, 1]) := by
  norm_num [_request_json, _request_loop, RETRYABLE_STATUS_CODES, MAX_REQUEST_RETRIES]

example : _request_json "u" (fun _ => .httpStatus 404 "gone") =
    (.httpError 404 "gone", 1, []) := by
  norm_num [_request_json, _request_loop, RETRYABLE_STATUS_CODES, MAX_REQUEST_RETRIES]

example :
    _request_json "u"
      (fun a => if a ≤ 2 then .httpStatus 503 "busy" else .success (.num 7)) =
    (.ok (.num 7), 3, [(1 : ℚ)/2, 1]) := by
  norm_num [_request_json, _request_loop, RETRYABLE_STATUS_CODES, MAX_REQUEST_RETRIES]

/-- The scan behind `re.search(r"[?&]cursor=([^&]+)", next_url)`: leftmost
position whose character is `?` or `&`, followed by the literal `cursor=` and
at least one non-`&` character; the (greedy) capture is the run of non-`&`
characters. -/
def _cursor_scan : List Char → Option String
  | [] => none
  | c :: rest =>
      if (c == '?' || c == '&') && "cursor=".toList.isPrefixOf rest then
        let tok := (rest.drop 7).takeWhile (fun d => d != '&')
        if tok.isEmpty then _cursor_scan rest else some tok.asString
      else _cursor_scan rest

/-- `_extract_next_cursor`: extract the cursor token from a next-page URL
(`None` and the empty string are falsy and yield `None`). -/
def _extract_next_cursor (next_url : Option String) : Option String :=
  match next_url with
  | none => none
  | some u => if u = "" then none else _cursor_scan u.toList

/-- `_approximate_count_flag`: approximate counts apply for certain types over
2000 results. -/
def _approximate_count_flag (result_type : String) (count : Int) : Bool :=
  (["d", "r", "rd"] : List String).contains result_type && decide (count > 2000)

/-- `_courts_param`: join the cleaned court identifiers with `+`, `None` when
nothing survives (`if not courts` catches both `None` and the empty list; the
comprehension keeps courts that are truthy before and after `strip()`). -/
def _courts_param (courts : Option (List String)) : Option String :=
  match courts with
  | none => none
  | some cs =>
      if cs.isEmpty then none
      else
        let cleaned := (cs.filter (fun c => c != "" && pyStrip c != "")).map pyStrip
        if cleaned.isEmpty then none else some (String.intercalate "+" cleaned)

/-- The scan behind `re.search(lit ++ "(\d+)/", s)` for a literal pattern
prefix (`/opinions/` or `/opinion/`): leftmost occurrence of the literal
followed by at least one digit followed by `/`; the capture is the (greedy,
maximal) digit run, read as an integer by `int(m.group(1))`. -/
def _id_scan (lit : List Char) : List Char → Option Nat
  | [] => none
  | c :: rest =>
      if lit.isPrefixOf (c :: rest) then
        let after := (c :: rest).drop lit.length
        let digits := after.takeWhile Char.isDigit
        if !digits.isEmpty && (after.drop digits.length).head? == some '/' then
          some (digitsToNat digits)
        else _id_scan lit rest
      else _id_scan lit rest

/-- `re.search(lit ++ r"(\d+)/", s)` returning `int(m.group(1))`. -/
def _regex_id_search (lit : String) (s : String) : Option Nat :=
  _id_scan lit.toList s.toList

/-- The `_get_json` oracle a handler runs against: URL and optional query
parameters to either a parsed JSON body or the message of the raised
`RuntimeError`. -/
abbrev Upstream := String → Option (List (String × String)) → Except String JsonVal

/-- One normalized entry of the search response's `results` list. -/
structure SearchResult where
  title : JsonVal
  cluster_id : Option JsonVal
  docket_id : Option JsonVal
  court : Option JsonVal
  court_id : Option JsonVal
  date_filed : Option JsonVal
  url : Option String
  citation : Option JsonVal
  snippet : Option JsonVal
  score : Option JsonVal
  raw : JsonVal

/-- The normalized search response. -/
structure SearchResponse where
  count : Int
  approximate : Bool
  next_cursor : Option String
  results : List SearchResult

/-- The `absolute_url`-to-site-URL step
`("https://www.courtlistener.com" + x["absolute_url"]) if x.get("absolute_url") else None`
(a truthy non-string value would raise `TypeError` on `+` in Python; upstream
delivers strings here). -/
def _absolute_url_link (v : Option JsonVal) : Option String :=
  match v with
  | some (.str s) => if s != "" then some ("https://www.courtlistener.com" ++ s) else none
  | _ => none

/-- The `meta.score.bm25` extraction of `courtlistener_search` (`score` stays
`None` unless `meta` and `meta["score"]` are dicts). -/
def _item_score (item : JsonVal) : Option JsonVal :=
  let meta := pythonOrD (pyGet item "meta") (.obj [])
  match meta with
  | .obj _ =>
      match pyGet meta "score" with
      | some score_obj =>
          match score_obj with
          | .obj _ => pyGet score_obj "bm25"
          | _ => none
      | none => none
  | _ => none

/-- The body of the normalization loop of `courtlistener_search` for one
upstream result item. -/
def _normalize_search_item (item : JsonVal) : SearchResult :=
  { title := pythonOrD (pyGet item "caseName")
      (pythonOrD (pyGet item "name")
        (pythonOrD (pyGet item "docketNumber") (.str "(unknown)"))),
    cluster_id := pyGet item "cluster_id",
    docket_id := pyGet item "docket_id",
    court := pyGet item "court",
    court_id := pyGet item "court_id",
    date_filed := pyGet item "dateFiled",
    url := _absolute_url_link (pyGet item "absolute_url"),
    citation := pyGet item "citation",
    snippet := pythonOrOpt (pyGet item "snippet"),
    score := _item_score item,
    raw := item }

/-- The query-parameter dict `courtlistener_search` builds, in insertion
order (optional parameters are added only when truthy). -/
def _search_params (query type : String) (courts : Option (List String))
    (semantic : Bool) (order_by : Option String) (highlight : Bool)
    (limit : Int) (cursor : Option String) : List (String × String) :=
  [("q", query), ("type", type), ("format", "json"), ("page_size", toString limit)]
  ++ (match _courts_param courts with
      | some cj => if cj ≠ "" then [("court", cj)] else []
      | none => [])
  ++ (if semantic then [("semantic", "true")] else [])
  ++ (match order_by with
      | some ob => if ob ≠ "" then [("order_by", ob)] else []
      | none => [])
  ++ (if highlight then [("highlight", "on")] else [])
  ++ (match cursor with
      | some c => if c ≠ "" then [("cursor", c)] else []
      | none => [])

/-- The list the normalization loop ranges over before slicing:
`raw.get("results") or []`. -/
def _results_list (raw : JsonVal) : List JsonVal :=
  jsonElems (pythonOrD (pyGet raw "results") (.arr []))

/-- `courtlistener_search`, parametrised by the `_get_json` oracle.  The
second component counts upstream requests (0 when validation fails, 1
otherwise).  `[:limit]` is `take limit.toNat`; validation has ensured
`1 ≤ limit ≤ 50` on every path that slices. -/
def courtlistener_search (query : String) (type : String)
    (courts : Option (List String)) (semantic : Bool) (order_by : Option String)
    (highlight : Bool) (limit : Int) (cursor : Option String)
    (upstream : Upstream) : Except String SearchResponse × Nat :=
  if query = "" ∨ pyStrip query = "" then (.error "query is required", 0)
  else if type ∉ (["o", "r", "rd", "d", "p", "oa"] : List String) then
    (.error "type must be one of: o, r, rd, d, p, oa", 0)
  else if semantic = true ∧ type ≠ "o" then
    (.error "semantic search is only available for type='o' (case law)", 0)
  else if limit < 1 ∨ limit > 50 then (.error "limit must be between 1 and 50", 0)
  else
    match upstream SEARCH_ENDPOINT
        (some (_search_params query type courts semantic order_by highlight limit cursor)) with
    | .error e => (.error e, 1)
    | .ok raw =>
        match pyInt (pyGetD raw "count" (.num 0)) with
        | .error e => (.error e, 1)
        | .ok count =>
            (.ok { count := count,
                   approximate := _approximate_count_flag type count,
                   next_cursor := _extract_next_cursor (jsonAsOptStr (pyGet raw "next")),
                   results := ((_results_list raw).take limit.toNat).map _normalize_search_item },
             1)

/-- The normalized opinion record returned by `courtlistener_get_opinion`. -/
structure Opinion where
  opinion_id : Option JsonVal
  cluster : Option JsonVal
  type : Option JsonVal
  author : Option JsonVal
  per_curiam : Option JsonVal
  joined_by : Option JsonVal
  text_format : String
  text : JsonVal
  download_url : Option JsonVal
  local_path : Option JsonVal
  opinions_cited : JsonVal
  raw : JsonVal

/-- The fixed field projection requested by `courtlistener_get_opinion`. -/
def _opinion_fields (text_format : String) : List String :=
  ["id", "cluster", "type", "author_str", "per_curiam", "joined_by_str",
   text_format, "download_url", "local_path", "opinions_cited",
   "date_created", "date_modified"]

/-- `courtlistener_get_opinion`, parametrised by the `_get_json` oracle. -/
def courtlistener_get_opinion (opinion_id : Int) (text_format : String)
    (upstream : Upstream) : Except String Opinion :=
  if text_format ∉ (["html_with_citations", "plain_text"] : List String) then
    .error "text_format must be 'html_with_citations' or 'plain_text'"
  else
    match upstream (OPINIONS_ENDPOINT ++ "/" ++ toString opinion_id ++ "/")
        (some [("fields", String.intercalate "," (_opinion_fields text_format))]) with
    | .error e => .error e
    | .ok raw =>
        .ok { opinion_id := pyGet raw "id",
              cluster := pyGet raw "cluster",
              type := pyGet raw "type",
              author := pyGet raw "author_str",
              per_curiam := pyGet raw "per_curiam",
              joined_by := pyGet raw "joined_by_str",
              text_format := text_format,
              text := pythonOrD (pyGet raw text_format) (.str ""),
              download_url := pyGet raw "download_url",
              local_path := pyGet raw "local_path",
              opinions_cited := pythonOrD (pyGet raw "opinions_cited") (.arr []),
              raw := raw }

/-- One `opinion_errors` entry of a cluster fetch. -/
structure OpinionError where
  opinion_id : Nat
  error : String

/-- The normalized cluster record returned by `courtlistener_get_cluster`.
`opinion_errors = none` models the `opinion_errors` key being absent from the
returned dict. -/
structure Cluster where
  cluster_id : Option JsonVal
  absolute_url : Option JsonVal
  url : Option String
  case_name : Option JsonVal
  case_name_full : Option JsonVal
  docket : Option JsonVal
  court : Option JsonVal
  court_id : Option JsonVal
  date_filed : Option JsonVal
  citations : Option JsonVal
  sub_opinions : JsonVal
  opinions : List Opinion
  opinion_errors : Option (List OpinionError)
  raw : JsonVal

/-- The `zip(opinion_ids, await asyncio.gather(..., return_exceptions=True))`
loop of `courtlistener_get_cluster`: successes append to `opinions`, captured
exceptions append to `opinion_errors`, both in input order. -/
def _split_gather : List (Nat × Except String Opinion) →
    List Opinion × List OpinionError
  | [] => ([], [])
  | (i, r) :: rest =>
      let acc := _split_gather rest
      match r with
      | .ok op => (op :: acc.1, acc.2)
      | .error e => (acc.1, ⟨i, e⟩ :: acc.2)

/-- The `result` dict `courtlistener_get_cluster` builds before the optional
opinion fan-out (`opinions` empty, no `opinion_errors` key). -/
def _cluster_base (cluster : JsonVal) : Cluster :=
  { cluster_id := pyGet cluster "id",
    absolute_url := pyGet cluster "absolute_url",
    url := _absolute_url_link (pyGet cluster "absolute_url"),
    case_name := pyGet cluster "case_name",
    case_name_full := pyGet cluster "case_name_full",
    docket := pyGet cluster "docket",
    court := pyGet cluster "court",
    court_id := pyGet cluster "court_id",
    date_filed := pyGet cluster "date_filed",
    citations := pyGet cluster "citations",
    sub_opinions := pythonOrD (pyGet cluster "sub_opinions") (.arr []),
    opinions := [],
    opinion_errors := none,
    raw := cluster }

/-- `courtlistener_get_cluster`, parametrised by the `_get_json` oracle; the
sub-opinion fetches go through `courtlistener_get_opinion` exactly as in the
source, with each captured exception modelled by that call's `Except` error.
The second component counts upstream requests (the cluster fetch plus one per
extracted opinion id; the text-format set was already validated, so each
sub-fetch issues exactly one request). -/
def courtlistener_get_cluster (cluster_id : Int) (include_opinions : Bool)
    (opinion_text_format : String) (upstream : Upstream) :
    Except String Cluster × Nat :=
  if opinion_text_format ∉ (["html_with_citations", "plain_text"] : List String) then
    (.error "opinion_text_format must be 'html_with_citations' or 'plain_text'", 0)
  else
    match upstream (CLUSTERS_ENDPOINT ++ "/" ++ toString cluster_id ++ "/") none with
    | .error e => (.error e, 1)
    | .ok cluster =>
        if include_opinions && truthy (pythonOrD (pyGet cluster "sub_opinions") (.arr [])) then
          let opinion_ids :=
            (jsonElems (pythonOrD (pyGet cluster "sub_opinions") (.arr []))).filterMap
              (fun u => _regex_id_search "/opinions/" (pyStr u))
          let split := _split_gather (opinion_ids.map
            (fun i => (i, courtlistener_get_opinion (Int.ofNat i) opinion_text_format upstream)))
          (.ok { _cluster_base cluster with
                 opinions := split.1,
                 opinion_errors := if split.2.isEmpty then none else some split.2 },
           1 + opinion_ids.length)
        else (.ok (_cluster_base cluster), 1)

/-- The record returned by `courtlistener_resolve_from_url`. -/
structure Resolved where
  resolved_type : String
  cluster_id : Int
  result : Cluster

/-- `courtlistener_resolve_from_url`, parametrised by the `_get_json` oracle.
The second component counts upstream requests (0 when validation fails). -/
def courtlistener_resolve_from_url (url : String) (include_opinions : Bool)
    (opinion_text_format : String) (upstream : Upstream) :
    Except String Resolved × Nat :=
  if url = "" ∨ pyStrip url = "" then (.error "url is required", 0)
  else
    match _regex_id_search "/opinion/" url with
    | none =>
        (.error "Unsupported URL format. Expected a CourtListener /opinion/<cluster_id>/ URL.", 0)
    | some cid =>
        match courtlistener_get_cluster ((cid : Nat) : Int) include_opinions
            opinion_text_format upstream with
        | (.error e, n) => (.error e, n)
        | (.ok c, n) =>
            (.ok { resolved_type := "cluster", cluster_id := ((cid : Nat) : Int), result := c }, n)

example : _extract_next_cursor (some "https://x/?cursor=abc&y=1") = some "abc" := by rfl

example : _extract_next_cursor none = none := by rfl

example : _extract_next_cursor (some "https://x/?y=1") = none := by rfl

example : _regex_id_search "/opinion/" "https://host/opinion/2812209/slug" = some 2812209 := by rfl

example : _regex_id_search "/opinion/" "https://host/invalid" = none := by rfl

example : _regex_id_search "/opinions/"
    "https://www.courtlistener.com/api/rest/v4/opinions/999/" = some 999 := by rfl

example : _courts_param (some ["ca1", " ca2 "]) = some "ca1+ca2" := by rfl

theorem _request_loop_attempts_le (trace : Nat → Outcome) :
    ∀ (fuel attempt : Nat) (le : Option Outcome),
      (_request_loop trace attempt fuel le).2.1 ≤ fuel := by
  intro fuel
  induction fuel with
  | zero =>
      intro attempt le
      cases le <;> simp [_request_loop]
  | succ f ih =>
      intro attempt le
      cases h : trace attempt with
      | success body => simp [_request_loop, h]
      | httpStatus status text =>
          by_cases hr : status ∈ RETRYABLE_STATUS_CODES ∧ attempt < MAX_REQUEST_RETRIES
          · simp only [_request_loop, h, if_pos hr]
            exact Nat.succ_le_succ (ih _ _)
          · simp [_request_loop, h, hr]
      | transportError msg =>
          by_cases hr : attempt < MAX_REQUEST_RETRIES
          · simp only [_request_loop, h, if_pos hr]
            exact Nat.succ_le_succ (ih _ _)
          · simp [_request_loop, h, hr]

theorem _request_loop_attempts_pos (trace : Nat → Outcome) (f attempt : Nat)
    (le : Option Outcome) : 1 ≤ (_request_loop trace attempt (f + 1) le).2.1 := by
  cases h : trace attempt with
  | success body => simp [_request_loop, h]
  | httpStatus status text =>
      by_cases hr : status ∈ RETRYABLE_STATUS_CODES ∧ attempt < MAX_REQUEST_RETRIES
      · simp only [_request_loop, h, if_pos hr]
        omega
      · simp [_request_loop, h, hr]
  | transportError msg =>
      by_cases hr : attempt < MAX_REQUEST_RETRIES
      · simp only [_request_loop, h, if_pos hr]
        omega
      · simp [_request_loop, h, hr]

theorem _request_loop_retried_retryable (trace : Nat → Outcome) :
    ∀ (fuel attempt : Nat) (le : Option Outcome) (j : Nat),
      j + 1 < (_request_loop trace attempt fuel le).2.1 →
      retryable_outcome (trace (attempt + j)) := by
  intro fuel
  induction fuel with
  | zero =>
      intro attempt le j hj
      cases le <;> simp [_request_loop] at hj
  | succ f ih =>
      intro attempt le j hj
      cases h : trace attempt with
      | success body => simp [_request_loop, h] at hj
      | httpStatus status text =>
          by_cases hr : status ∈ RETRYABLE_STATUS_CODES ∧ attempt < MAX_REQUEST_RETRIES
          · cases j with
            | zero => simpa [retryable_outcome, h] using hr.1
            | succ j' =>
                simp only [_request_loop, h, if_pos hr] at hj
                have hj' : j' + 1 < (_request_loop trace (attempt + 1) f
                    (some (.httpStatus status text))).2.1 := by omega
                have := ih (attempt + 1) (some (.httpStatus status text)) j' hj'
                have harith : attempt + (j' + 1) = attempt + 1 + j' := by omega
                rwa [harith]
          · simp [_request_loop, h, hr] at hj
      | transportError msg =>
          by_cases hr : attempt < MAX_REQUEST_RETRIES
          · cases j with
            | zero => simp [retryable_outcome, h]
            | succ j' =>
                simp only [_request_loop, h, if_pos hr] at hj
                have hj' : j' + 1 < (_request_loop trace (attempt + 1) f
                    (some (.transportError msg))).2.1 := by omega
                have := ih (attempt + 1) (some (.transportError msg)) j' hj'
                have harith : attempt + (j' + 1) = attempt + 1 + j' := by omega
                rwa [harith]
          · simp [_request_loop, h, hr] at hj

theorem _request_loop_step_http_retry (trace : Nat → Outcome) (f attempt : Nat)
    (le : Option Outcome) (status : Nat) (text : String)
    (h : trace attempt = .httpStatus status text)
    (hr : status ∈ RETRYABLE_STATUS_CODES ∧ attempt < MAX_REQUEST_RETRIES) :
    _request_loop trace attempt (f + 1) le =
      ((_request_loop trace (attempt + 1) f (some (.httpStatus status text))).1,
       (_request_loop trace (attempt + 1) f (some (.httpStatus status text))).2.1 + 1,
       ((attempt : ℚ) / 2) ::
         (_request_loop trace (attempt + 1) f (some (.httpStatus status text))).2.2) := by
  simp [_request_loop, h, hr]

theorem _request_loop_step_transport_retry (trace : Nat → Outcome) (f attempt : Nat)
    (le : Option Outcome) (msg : String)
    (h : trace attempt = .transportError msg)
    (hr : attempt < MAX_REQUEST_RETRIES) :
    _request_loop trace attempt (f + 1) le =
      ((_request_loop trace (attempt + 1) f (some (.transportError msg))).1,
       (_request_loop trace (attempt + 1) f (some (.transportError msg))).2.1 + 1,
       ((attempt : ℚ) / 2) ::
         (_request_loop trace (attempt + 1) f (some (.transportError msg))).2.2) := by
  simp [_request_loop, h, hr]

theorem _request_loop_delays (trace : Nat → Outcome) :
    ∀ (fuel attempt : Nat) (le : Option Outcome),
      attempt + fuel = MAX_REQUEST_RETRIES + 1 →
      (_request_loop trace attempt fuel le).2.2 =
        (List.range ((_request_loop trace attempt fuel le).2.1 - 1)).map
          (fun i => ((attempt + i : Nat) : ℚ) / 2) := by
  intro fuel
  induction fuel with
  | zero =>
      intro attempt le _
      cases le <;> simp [_request_loop]
  | succ f ih =>
      intro attempt le hinv
      cases h : trace attempt with
      | success body => simp [_request_loop, h]
      | httpStatus status text =>
          by_cases hr : status ∈ RETRYABLE_STATUS_CODES ∧ attempt < MAX_REQUEST_RETRIES
          · obtain ⟨f', rfl⟩ : ∃ f', f = f' + 1 := by
              refine ⟨f - 1, ?_⟩
              have := hr.2
              simp [MAX_REQUEST_RETRIES] at this hinv
              omega
            have hpos := _request_loop_attempts_pos trace f' (attempt + 1)
              (some (.httpStatus status text))
            have hih := ih (attempt + 1) (some (.httpStatus status text)) (by omega)
            rw [_request_loop_step_http_retry trace (f' + 1) attempt le status text h hr]
            obtain ⟨m, hm⟩ := Nat.exists_eq_succ_of_ne_zero
              (by omega : (_request_loop trace (attempt + 1) (f' + 1)
                (some (Outcome.httpStatus status text))).2.1 ≠ 0)
            rw [hm] at hih
            simp only [hih, hm, Nat.add_sub_cancel, List.range_succ_eq_map,
              List.map_cons, List.map_map, List.cons.injEq]
            constructor
            · norm_num
            · apply List.map_congr_left
              intro i _
              simp only [Function.comp_apply]
              have harith : attempt + 1 + i = attempt + Nat.succ i := by omega
              rw [harith]
          · simp [_request_loop, h, hr]
      | transportError msg =>
          by_cases hr : attempt < MAX_REQUEST_RETRIES
          · obtain ⟨f', rfl⟩ : ∃ f', f = f' + 1 := by
              refine ⟨f - 1, ?_⟩
              simp [MAX_REQUEST_RETRIES] at hr hinv
              omega
            have hpos := _request_loop_attempts_pos trace f' (attempt + 1)
              (some (.transportError msg))
            have hih := ih (attempt + 1) (some (.transportError msg)) (by omega)
            rw [_request_loop_step_transport_retry trace (f' + 1) attempt le msg h hr]
            obtain ⟨m, hm⟩ := Nat.exists_eq_succ_of_ne_zero
              (by omega : (_request_loop trace (attempt + 1) (f' + 1)
                (some (Outcome.transportError msg))).2.1 ≠ 0)
            rw [hm] at hih
            simp only [hih, hm, Nat.add_sub_cancel, List.range_succ_eq_map,
              List.map_cons, List.map_map, List.cons.injEq]
            constructor
            · norm_num
            · apply List.map_congr_left
              intro i _
              simp only [Function.comp_apply]
              have harith : attempt + 1 + i = attempt + Nat.succ i := by omega
              rw [harith]
          · simp [_request_loop, h, hr]

theorem _request_loop_no_postloop (trace : Nat → Outcome) :
    ∀ (fuel attempt : Nat) (le : Option Outcome),
      attempt + fuel = MAX_REQUEST_RETRIES + 1 → 1 ≤ fuel →
      (_request_loop trace attempt fuel le).1 ≠ ReqResult.failedUnknown ∧
      ∀ e, (_request_loop trace attempt fuel le).1 ≠ ReqResult.failedAfterRetries e := by
  intro fuel
  induction fuel with
  | zero =>
      intro attempt le _ hf
      omega
  | succ f ih =>
      intro attempt le hinv _
      cases h : trace attempt with
      | success body => simp [_request_loop, h]
      | httpStatus status text =>
          by_cases hr : status ∈ RETRYABLE_STATUS_CODES ∧ attempt < MAX_REQUEST_RETRIES
          · have hf : 1 ≤ f := by
              have := hr.2
              simp [MAX_REQUEST_RETRIES] at this hinv
              omega
            have := ih (attempt + 1) (some (.httpStatus status text)) (by omega) hf
            rw [_request_loop_step_http_retry trace f attempt le status text h hr]
            exact this
          · simp [_request_loop, h, hr]
      | transportError msg =>
          by_cases hr : attempt < MAX_REQUEST_RETRIES
          · have hf : 1 ≤ f := by
              simp [MAX_REQUEST_RETRIES] at hr hinv
              omega
            have := ih (attempt + 1) (some (.transportError msg)) (by omega) hf
            rw [_request_loop_step_transport_retry trace f attempt le msg h hr]
            exact this
          · simp [_request_loop, h, hr]

/-- C1: for every request, at most 3 upstream attempts are made; an attempt is
followed by another only when it failed with a transport-level error or an
HTTP status in the retryable set; the backoff slept before the (i+1)-st retry
is 0.5 × i seconds; a non-retryable HTTP status on the first attempt fails
after exactly one attempt with no retry and no backoff; and a request failing
with status 503 on attempts 1 and 2 and succeeding on attempt 3 returns the
successful body after exactly 3 attempts. -/
theorem request_retry_policy :
    (∀ url trace, (_request_json url trace).2.1 ≤ 3) ∧
    (∀ url trace k, 1 ≤ k → k < (_request_json url trace).2.1 →
        retryable_outcome (trace k)) ∧
    (∀ url trace, (_request_json url trace).2.2 =
        (List.range ((_request_json url trace).2.1 - 1)).map
          (fun i => ((1 + i : Nat) : ℚ) / 2)) ∧
    (∀ url trace status text, status ∉ RETRYABLE_STATUS_CODES →
        trace 1 = .httpStatus status text →
        _request_json url trace = (.httpError status text, 1, [])) ∧
    (∀ url trace t1 t2 body, trace 1 = .httpStatus 503 t1 →
        trace 2 = .httpStatus 503 t2 → trace 3 = .success body →
        _request_json url trace = (.ok body, 3, [(1 : ℚ)/2, 1])) := by
  refine ⟨?_, ?_, ?_, ?_, ?_⟩
  · intro url trace
    exact _request_loop_attempts_le trace MAX_REQUEST_RETRIES 1 none
  · intro url trace k hk1 hk2
    have h := _request_loop_retried_retryable trace MAX_REQUEST_RETRIES 1 none (k - 1)
      (by unfold _request_json at hk2; omega)
    have harith : 1 + (k - 1) = k := by omega
    rwa [harith] at h
  · intro url trace
    exact _request_loop_delays trace MAX_REQUEST_RETRIES 1 none rfl
  · intro url trace status text hs h1
    show _request_loop trace 1 MAX_REQUEST_RETRIES none = _
    simp [MAX_REQUEST_RETRIES, _request_loop, h1, hs]
  · intro url trace t1 t2 body h1 h2 h3
    show _request_loop trace 1 MAX_REQUEST_RETRIES none = _
    simp only [MAX_REQUEST_RETRIES, _request_loop, h1, h2, h3]
    norm_num [RETRYABLE_STATUS_CODES]

/-- Witness for C1: a concrete trace failing with 503 on attempts 1 and 2 and
succeeding on attempt 3 yields the successful body after exactly 3 attempts,
with backoffs of 0.5 and 1.0 seconds. -/
theorem request_retry_policy_witness :
    _request_json "https://www.courtlistener.com/api/rest/v4/search/"
      (fun a => if a = 1 then .httpStatus 503 "busy"
                else if a = 2 then .httpStatus 503 "flaky"
                else .success (.num 1)) =
      (.ok (.num 1), 3, [(1 : ℚ)/2, 1]) :=
  request_retry_policy.2.2.2.2 _ _ "busy" "flaky" (.num 1) rfl rfl rfl

/-- C10: the post-loop raises of `_request_json` (the synthesized
"failed after retries" and "failed for unknown reasons" errors) are
unreachable: for every trace the loop itself returns a body or raises. -/
theorem request_postloop_unreachable :
    ∀ url trace, (_request_json url trace).1 ≠ ReqResult.failedUnknown ∧
      ∀ e, (_request_json url trace).1 ≠ ReqResult.failedAfterRetries e := by
  intro url trace
  exact _request_loop_no_postloop trace MAX_REQUEST_RETRIES 1 none rfl
    (by norm_num [MAX_REQUEST_RETRIES])

/-- Counterexample for C3 as stated: three retryable failures exhaust the
retries, and the synthesized error embeds the last status and body but does
not embed the request URL. -/
theorem request_error_url_counterexample :
    _error_message (_request_json "https://x/" (fun _ => .httpStatus 503 "boom")).1 =
      some "CourtListener HTTP error 503: boom" ∧
    strContains "CourtListener HTTP error 503: boom" "https://x/" = false ∧
    strContains "CourtListener HTTP error 503: boom" "503" = true := by
  refine ⟨rfl, by decide, by decide⟩

/-- After two retryable attempts, the third iteration of the loop decides the
request: this is the shared reduction used for the exhausted-retries error. -/
theorem _request_json_third_attempt (trace : Nat → Outcome)
    (h1 : retryable_outcome (trace 1)) (h2 : retryable_outcome (trace 2)) :
    ∀ url, (_request_json url trace).1 = (_request_loop trace 3 1 (some (trace 2))).1 := by
  intro url
  show (_request_loop trace 1 MAX_REQUEST_RETRIES none).1 = _
  have e1 : (_request_loop trace 1 MAX_REQUEST_RETRIES none).1 =
      (_request_loop trace 2 2 (some (trace 1))).1 := by
    cases o1 : trace 1 with
    | success body => rw [o1] at h1; exact absurd h1 (by simp [retryable_outcome])
    | httpStatus status text =>
        rw [o1] at h1
        show (_request_loop trace 1 (2 + 1) none).1 = _
        rw [_request_loop_step_http_retry trace 2 1 none status text o1
          ⟨h1, by norm_num [MAX_REQUEST_RETRIES]⟩]
    | transportError msg =>
        show (_request_loop trace 1 (2 + 1) none).1 = _
        rw [_request_loop_step_transport_retry trace 2 1 none msg o1
          (by norm_num [MAX_REQUEST_RETRIES])]
  have e2 : (_request_loop trace 2 2 (some (trace 1))).1 =
      (_request_loop trace 3 1 (some (trace 2))).1 := by
    cases o2 : trace 2 with
    | success body => rw [o2] at h2; exact absurd h2 (by simp [retryable_outcome])
    | httpStatus status text =>
        rw [o2] at h2
        show (_request_loop trace 2 (1 + 1) (some (trace 1))).1 = _
        rw [_request_loop_step_http_retry trace 1 2 (some (trace 1)) status text o2
          ⟨h2, by norm_num [MAX_REQUEST_RETRIES]⟩]
    | transportError msg =>
        show (_request_loop trace 2 (1 + 1) (some (trace 1))).1 = _
        rw [_request_loop_step_transport_retry trace 1 2 (some (trace 1)) msg o2
          (by norm_num [MAX_REQUEST_RETRIES])]
  rw [e1, e2]

/-- C3 as amended: on exhausting retries the request fails with a single
synthesized error embedding the last observed HTTP status together with the
(truncated) response body, or the transport error description; the request
URL appears only in the per-attempt log, not in the synthesized error. -/
theorem request_exhausted_error_content :
    (∀ url trace status text,
        retryable_outcome (trace 1) → retryable_outcome (trace 2) →
        trace 3 = .httpStatus status text →
        (_request_json url trace).1 = .httpError status text ∧
        _error_message (_request_json url trace).1 =
          some ("CourtListener HTTP error " ++ toString status ++ ": " ++ pyTake text 500)) ∧
    (∀ url trace msg,
        retryable_outcome (trace 1) → retryable_outcome (trace 2) →
        trace 3 = .transportError msg →
        (_request_json url trace).1 = .requestError msg ∧
        _error_message (_request_json url trace).1 =
          some ("CourtListener request error: " ++ msg)) := by
  constructor
  · intro url trace status text h1 h2 h3
    have hres : (_request_json url trace).1 = .httpError status text := by
      rw [_request_json_third_attempt trace h1 h2 url]
      have hcond : ¬(status ∈ RETRYABLE_STATUS_CODES ∧ 3 < MAX_REQUEST_RETRIES) := by
        intro hc
        exact absurd hc.2 (by norm_num [MAX_REQUEST_RETRIES])
      simp [_request_loop, h3, hcond]
    exact ⟨hres, by rw [hres]; rfl⟩
  · intro url trace msg h1 h2 h3
    have hres : (_request_json url trace).1 = .requestError msg := by
      rw [_request_json_third_attempt trace h1 h2 url]
      simp [_request_loop, h3, MAX_REQUEST_RETRIES]
    exact ⟨hres, by rw [hres]; rfl⟩

/-- Witness for the amended C3: two 502 responses then a 503 response produce
the error built from the last status and body. -/
theorem request_exhausted_error_content_witness :
    (_request_json "https://x/" (fun a => if a = 3 then .httpStatus 503 "last"
        else .httpStatus 502 "early")).1 = .httpError 503 "last" ∧
    _error_message (_request_json "https://x/" (fun a => if a = 3 then .httpStatus 503 "last"
        else .httpStatus 502 "early")).1 =
      some ("CourtListener HTTP error " ++ toString 503 ++ ": " ++ pyTake "last" 500) :=
  request_exhausted_error_content.1 "https://x/" _ 503 "last"
    (by simp [retryable_outcome, RETRYABLE_STATUS_CODES])
    (by simp [retryable_outcome, RETRYABLE_STATUS_CODES]) rfl

/-- C5: the approximate flag is true exactly for result types d, r, rd with a
count above 2000, and is false for types o, p, oa regardless of count. -/
theorem approximate_count_flag_spec :
    (∀ (t : String) (c : Int),
        _approximate_count_flag t c = true ↔ ((t = "d" ∨ t = "r" ∨ t = "rd") ∧ 2000 < c)) ∧
    (∀ c : Int, _approximate_count_flag "o" c = false ∧
        _approximate_count_flag "p" c = false ∧
        _approximate_count_flag "oa" c = false) := by
  constructor
  · intro t c
    simp [_approximate_count_flag]
  · intro c
    refine ⟨?_, ?_, ?_⟩ <;> simp [_approximate_count_flag]

/-- C6: cursor extraction returns the value of the cursor query parameter of
the next-page URL when present, and null when the URL is absent or carries no
cursor parameter. -/
theorem extract_next_cursor_spec :
    _extract_next_cursor (some "https://x/?cursor=abc&y=1") = some "abc" ∧
    _extract_next_cursor none = none ∧
    _extract_next_cursor (some "https://x/?y=1") = none := by
  exact ⟨rfl, rfl, rfl⟩

/-- C4: every search call violating a documented constraint (empty or
whitespace-only query, invalid type, semantic with a non-"o" type, or limit
outside [1,50]) fails with a descriptive error and issues no upstream request;
a call with semantic=true and type="o" passes validation and issues one. -/
theorem search_validation_gate :
    (∀ query type courts semantic order_by highlight limit cursor (upstream : Upstream),
        (pyStrip query = "" ∨ type ∉ (["o", "r", "rd", "d", "p", "oa"] : List String) ∨
         (semantic = true ∧ type ≠ "o") ∨ limit < 1 ∨ 50 < limit) →
        ∃ msg, courtlistener_search query type courts semantic order_by highlight limit
          cursor upstream = (.error msg, 0)) ∧
    (∀ query courts order_by highlight limit cursor (upstream : Upstream),
        pyStrip query ≠ "" → 1 ≤ limit → limit ≤ 50 →
        (courtlistener_search query "o" courts true order_by highlight limit cursor
          upstream).2 = 1) := by
  constructor
  · intro query type courts semantic order_by highlight limit cursor upstream hviol
    by_cases h1 : query = "" ∨ pyStrip query = ""
    · exact ⟨"query is required", by simp [courtlistener_search, h1]⟩
    · by_cases h2 : type ∈ (["o", "r", "rd", "d", "p", "oa"] : List String)
      · by_cases h3 : semantic = true ∧ type ≠ "o"
        · exact ⟨"semantic search is only available for type='o' (case law)",
            by simp [courtlistener_search, h1, h2, h3]⟩
        · by_cases h4 : limit < 1 ∨ limit > 50
          · exact ⟨"limit must be between 1 and 50",
              by simp [courtlistener_search, h1, h2, h3, h4]⟩
          · exfalso
            rcases hviol with h | h | h | h | h
            · exact h1 (Or.inr h)
            · exact h h2
            · exact h3 h
            · exact h4 (Or.inl h)
            · exact h4 (Or.inr h)
      · exact ⟨"type must be one of: o, r, rd, d, p, oa",
          by simp [courtlistener_search, h1, h2]⟩
  · intro query courts order_by highlight limit cursor upstream hq hl1 hl2
    have h1 : ¬(query = "" ∨ pyStrip query = "") := by
      rintro (h | h)
      · exact hq (by rw [h]; rfl)
      · exact hq h
    have h4 : ¬(limit < 1 ∨ limit > 50) := by omega
    simp only [courtlistener_search, h1, h4]
    cases hup : upstream SEARCH_ENDPOINT
        (some (_search_params query "o" courts true order_by highlight limit cursor)) with
    | error e => simp [hup]
    | ok raw =>
        cases hc : pyInt (pyGetD raw "count" (.num 0)) with
        | error e => simp [hup, hc]
        | ok count => simp [hup, hc]

/-- Witness for C4: semantic=true with type="d" fails validation with no
upstream call; semantic=true with type="o" passes validation and issues one
upstream call. -/
theorem search_validation_gate_witness :
    (∃ msg, courtlistener_search "x" "d" none true none false 10 none
        (fun _ _ => .ok (.obj [])) = (.error msg, 0)) ∧
    (courtlistener_search "x" "o" none true none false 10 none
        (fun _ _ => .ok (.obj []))).2 = 1 :=
  ⟨search_validation_gate.1 "x" "d" none true none false 10 none _
      (Or.inr (Or.inr (Or.inl ⟨rfl, by decide⟩))),
   search_validation_gate.2 "x" none none false 10 none _ (by decide) (by decide) (by decide)⟩

/-- C8: a validated search call returns the normalized response whose results
are the first `limit` upstream result items, normalized in upstream order, so
the results list never exceeds `limit` items. -/
theorem search_truncates_results :
    ∀ query type courts semantic order_by highlight limit cursor
      (upstream : Upstream) raw count,
      pyStrip query ≠ "" → type ∈ (["o", "r", "rd", "d", "p", "oa"] : List String) →
      (semantic = true → type = "o") → 1 ≤ limit → limit ≤ 50 →
      upstream SEARCH_ENDPOINT (some (_search_params query type courts semantic order_by
          highlight limit cursor)) = .ok raw →
      pyInt (pyGetD raw "count" (.num 0)) = .ok count →
      courtlistener_search query type courts semantic order_by highlight limit cursor
          upstream =
        (.ok { count := count,
               approximate := _approximate_count_flag type count,
               next_cursor := _extract_next_cursor (jsonAsOptStr (pyGet raw "next")),
               results := ((_results_list raw).take limit.toNat).map _normalize_search_item },
         1) ∧
      (((_results_list raw).take limit.toNat).map _normalize_search_item).length ≤
        limit.toNat := by
  intro query type courts semantic order_by highlight limit cursor upstream raw count
    hq ht hs hl1 hl2 hup hc
  have h1 : ¬(query = "" ∨ pyStrip query = "") := by
    rintro (h | h)
    · exact hq (by rw [h]; rfl)
    · exact hq h
  have h3 : ¬(semantic = true ∧ type ≠ "o") := fun hx => hx.2 (hs hx.1)
  have h4 : ¬(limit < 1 ∨ limit > 50) := by omega
  constructor
  · simp [courtlistener_search, h1, ht, h3, h4, hup, hc]
  · simp only [List.length_map, List.length_take]
    exact Nat.min_le_left _ _

/-- Upstream search payload used by the truncation witness: three result
items with a count of 3 and a next-page URL. -/
def searchRawEx : JsonVal :=
  .obj [("count", .num 3),
        ("next", .str "https://www.courtlistener.com/api/rest/v4/search/?cursor=tok&type=o"),
        ("results", .arr [.obj [("caseName", .str "A")], .obj [("caseName", .str "B")],
                          .obj [("caseName", .str "C")]])]

/-- Oracle returning `searchRawEx` for every request. -/
def searchUpEx : Upstream := fun _ _ => .ok searchRawEx

/-- Witness for C8: with limit 2 and three upstream items, the handler keeps
the first two normalized items. -/
theorem search_truncates_results_witness :
    courtlistener_search "marbury" "o" none false none false 2 none searchUpEx =
      (.ok { count := 3,
             approximate := _approximate_count_flag "o" 3,
             next_cursor := _extract_next_cursor (jsonAsOptStr (pyGet searchRawEx "next")),
             results := ((_results_list searchRawEx).take (2 : Int).toNat).map
               _normalize_search_item },
       1) ∧
    (((_results_list searchRawEx).take (2 : Int).toNat).map _normalize_search_item).length ≤
      (2 : Int).toNat :=
  search_truncates_results "marbury" "o" none false none false 2 none searchUpEx searchRawEx 3
    (by decide) (by decide) (fun h => rfl) (by decide) (by decide) rfl rfl

/-- Upstream opinion payload whose requested text field is present but null. -/
def opinionRawNull : JsonVal := .obj [("id", .num 999), ("plain_text", JsonVal.null)]

/-- Oracle returning `opinionRawNull` for every request. -/
def opinionUpNull : Upstream := fun _ _ => .ok opinionRawNull

/-- Counterexample for C9 as stated: the upstream payload carries the
requested field `plain_text` with value null, yet the returned text is the
empty string, not that field's value. -/
theorem get_opinion_text_counterexample :
    pyGet opinionRawNull "plain_text" = some JsonVal.null ∧
    courtlistener_get_opinion 999 "plain_text" opinionUpNull =
      .ok { opinion_id := some (.num 999), cluster := none, type := none, author := none,
            per_curiam := none, joined_by := none, text_format := "plain_text",
            text := JsonVal.str "", download_url := none, local_path := none,
            opinions_cited := .arr [], raw := opinionRawNull } ∧
    JsonVal.str "" ≠ JsonVal.null := by
  refine ⟨rfl, rfl, ?_⟩
  intro h
  exact JsonVal.noConfusion h

/-- C9 as amended: for a valid text format, the returned text equals the
requested format's field value whenever that value is present and truthy, and
equals the empty string when the field is absent or its value is falsy (null,
false, 0, or the empty string). -/
theorem get_opinion_text_field :
    ∀ (opinion_id : Int) (text_format : String) (upstream : Upstream) (raw : JsonVal),
      text_format ∈ (["html_with_citations", "plain_text"] : List String) →
      upstream (OPINIONS_ENDPOINT ++ "/" ++ toString opinion_id ++ "/")
        (some [("fields", String.intercalate "," (_opinion_fields text_format))]) = .ok raw →
      ∃ op, courtlistener_get_opinion opinion_id text_format upstream = .ok op ∧
        op.text_format = text_format ∧
        (∀ v, pyGet raw text_format = some v → truthy v = true → op.text = v) ∧
        ((pyGet raw text_format = none ∨
          ∃ v, pyGet raw text_format = some v ∧ truthy v = false) →
          op.text = JsonVal.str "") := by
  intro opinion_id text_format upstream raw hfmt hup
  refine ⟨{ opinion_id := pyGet raw "id", cluster := pyGet raw "cluster",
            type := pyGet raw "type", author := pyGet raw "author_str",
            per_curiam := pyGet raw "per_curiam", joined_by := pyGet raw "joined_by_str",
            text_format := text_format,
            text := pythonOrD (pyGet raw text_format) (JsonVal.str ""),
            download_url := pyGet raw "download_url", local_path := pyGet raw "local_path",
            opinions_cited := pythonOrD (pyGet raw "opinions_cited") (JsonVal.arr []),
            raw := raw }, ?_, rfl, ?_, ?_⟩
  · simp [courtlistener_get_opinion, hfmt, hup]
  · intro v hv htr
    simp [pythonOrD, hv, htr]
  · rintro (h | ⟨v, hv, htr⟩)
    · simp [pythonOrD, h]
    · simp [pythonOrD, hv, htr]

/-- Witness for the amended C9: a payload carrying `plain_text` with the
truthy value "Opinion text" yields exactly that text. -/
theorem get_opinion_text_field_witness :
    ∃ op, courtlistener_get_opinion 999 "plain_text"
        (fun _ _ => .ok (.obj [("id", .num 999), ("plain_text", .str "Opinion text")])) =
        .ok op ∧
      op.text_format = "plain_text" ∧
      (∀ v, pyGet (.obj [("id", .num 999), ("plain_text", .str "Opinion text")])
          "plain_text" = some v → truthy v = true → op.text = v) ∧
      ((pyGet (.obj [("id", .num 999), ("plain_text", .str "Opinion text")])
          "plain_text" = none ∨
        ∃ v, pyGet (.obj [("id", .num 999), ("plain_text", .str "Opinion text")])
          "plain_text" = some v ∧ truthy v = false) → op.text = JsonVal.str "") :=
  get_opinion_text_field 999 "plain_text" _ _ (by decide) rfl

theorem _split_gather_map (f : Nat → Except String Opinion) :
    ∀ ids : List Nat,
      _split_gather (ids.map (fun i => (i, f i))) =
        (ids.filterMap (fun i => (f i).toOption),
         ids.filterMap (fun i =>
           match f i with
           | .error e => some ⟨i, e⟩
           | .ok _ => none)) := by
  intro ids
  induction ids with
  | nil => rfl
  | cons i rest ih =>
      cases hf : f i <;>
        simp [_split_gather, List.filterMap_cons, hf, ih, Except.toOption]

/-- C2: with include_opinions=true and a successful cluster fetch, the cluster
call succeeds regardless of individual sub-opinion fetch failures; sub-opinion
URIs not matching `/opinions/(\d+)/` are silently skipped; `opinions` holds
exactly the successful fetches and `opinion_errors` one `{opinion_id, error}`
entry per failed fetch, both in the surviving order of `sub_opinions`. -/
theorem get_cluster_partial_failure :
    ∀ (cluster_id : Int) (fmt : String) (upstream : Upstream) (clusterJson : JsonVal),
      fmt ∈ (["html_with_citations", "plain_text"] : List String) →
      upstream (CLUSTERS_ENDPOINT ++ "/" ++ toString cluster_id ++ "/") none =
        .ok clusterJson →
      ∃ c : Cluster,
        (courtlistener_get_cluster cluster_id true fmt upstream).1 = .ok c ∧
        c.opinions =
          ((jsonElems (pythonOrD (pyGet clusterJson "sub_opinions") (.arr []))).filterMap
              (fun u => _regex_id_search "/opinions/" (pyStr u))).filterMap
            (fun i => (courtlistener_get_opinion (Int.ofNat i) fmt upstream).toOption) ∧
        c.opinion_errors.getD [] =
          ((jsonElems (pythonOrD (pyGet clusterJson "sub_opinions") (.arr []))).filterMap
              (fun u => _regex_id_search "/opinions/" (pyStr u))).filterMap
            (fun i =>
              match courtlistener_get_opinion (Int.ofNat i) fmt upstream with
              | .error e => some (OpinionError.mk i e)
              | .ok _ => none) := by
  intro cluster_id fmt upstream clusterJson hfmt hcl
  have hsplit := _split_gather_map
    (fun i => courtlistener_get_opinion (Int.ofNat i) fmt upstream)
    ((jsonElems (pythonOrD (pyGet clusterJson "sub_opinions") (.arr []))).filterMap
      (fun u => _regex_id_search "/opinions/" (pyStr u)))
  by_cases htr : truthy (pythonOrD (pyGet clusterJson "sub_opinions") (.arr [])) = true
  · have hres : (courtlistener_get_cluster cluster_id true fmt upstream).1 =
        .ok { _cluster_base clusterJson with
              opinions :=
                (_split_gather
                  (((jsonElems (pythonOrD (pyGet clusterJson "sub_opinions") (.arr []))).filterMap
                      (fun u => _regex_id_search "/opinions/" (pyStr u))).map
                    (fun i => (i, courtlistener_get_opinion (Int.ofNat i) fmt upstream)))).1,
              opinion_errors :=
                if (_split_gather
                    (((jsonElems (pythonOrD (pyGet clusterJson "sub_opinions") (.arr []))).filterMap
                        (fun u => _regex_id_search "/opinions/" (pyStr u))).map
                      (fun i => (i, courtlistener_get_opinion (Int.ofNat i) fmt upstream)))).2.isEmpty
                then none
                else some (_split_gather
                  (((jsonElems (pythonOrD (pyGet clusterJson "sub_opinions") (.arr []))).filterMap
                      (fun u => _regex_id_search "/opinions/" (pyStr u))).map
                    (fun i => (i, courtlistener_get_opinion (Int.ofNat i) fmt upstream)))).2 } := by
      simp only [courtlistener_get_cluster, hfmt, hcl, htr]
      simp
    refine ⟨_, hres, ?_, ?_⟩
    · exact congrArg Prod.fst hsplit
    · have h2 : (_split_gather
          (((jsonElems (pythonOrD (pyGet clusterJson "sub_opinions") (.arr []))).filterMap
              (fun u => _regex_id_search "/opinions/" (pyStr u))).map
            (fun i => (i, courtlistener_get_opinion (Int.ofNat i) fmt upstream)))).2 =
          ((jsonElems (pythonOrD (pyGet clusterJson "sub_opinions") (.arr []))).filterMap
              (fun u => _regex_id_search "/opinions/" (pyStr u))).filterMap
            (fun i =>
              match courtlistener_get_opinion (Int.ofNat i) fmt upstream with
              | .error e => some (OpinionError.mk i e)
              | .ok _ => none) := congrArg Prod.snd hsplit
      show (if (_split_gather
            (((jsonElems (pythonOrD (pyGet clusterJson "sub_opinions") (.arr []))).filterMap
                (fun u => _regex_id_search "/opinions/" (pyStr u))).map
              (fun i => (i, courtlistener_get_opinion (Int.ofNat i) fmt upstream)))).2.isEmpty
          then none
          else some (_split_gather
            (((jsonElems (pythonOrD (pyGet clusterJson "sub_opinions") (.arr []))).filterMap
                (fun u => _regex_id_search "/opinions/" (pyStr u))).map
              (fun i => (i, courtlistener_get_opinion (Int.ofNat i) fmt upstream)))).2).getD []
          = _
      rw [h2]
      generalize ((jsonElems (pythonOrD (pyGet clusterJson "sub_opinions") (.arr []))).filterMap
          (fun u => _regex_id_search "/opinions/" (pyStr u))).filterMap
            (fun i =>
              match courtlistener_get_opinion (Int.ofNat i) fmt upstream with
              | .error e => some (OpinionError.mk i e)
              | .ok _ => none) = B
      cases B with
      | nil => simp
      | cons x xs => simp
  · simp only [Bool.not_eq_true] at htr
    have hempty : jsonElems (pythonOrD (pyGet clusterJson "sub_opinions") (.arr [])) = [] := by
      cases hv : pythonOrD (pyGet clusterJson "sub_opinions") (.arr []) with
      | arr xs =>
          rw [hv] at htr
          simp [truthy, List.isEmpty_iff] at htr
          simp [jsonElems, htr]
      | null => simp [jsonElems]
      | bool b => simp [jsonElems]
      | num n => simp [jsonElems]
      | str s => simp [jsonElems]
      | obj fs => simp [jsonElems]
    have hres : (courtlistener_get_cluster cluster_id true fmt upstream).1 =
        .ok (_cluster_base clusterJson) := by
      simp [courtlistener_get_cluster, hfmt, hcl, htr]
    refine ⟨_, hres, ?_, ?_⟩
    · simp [hempty, _cluster_base]
    · simp [hempty, _cluster_base]

/-- Cluster payload used by the partial-failure witness: two well-formed
sub-opinion URIs around one URI that does not match the opinion pattern. -/
def clusterRawEx : JsonVal :=
  .obj [("id", .num 123),
        ("sub_opinions",
         .arr [.str "https://www.courtlistener.com/api/rest/v4/opinions/10/",
               .str "garbage",
               .str "https://www.courtlistener.com/api/rest/v4/opinions/20/"])]

/-- Oracle for the partial-failure witness: the cluster fetch succeeds,
opinion 10 fails, opinion 20 succeeds. -/
def clusterUpEx : Upstream := fun url _ =>
  if url = OPINIONS_ENDPOINT ++ "/" ++ toString (10 : Int) ++ "/" then .error "boom"
  else if url = OPINIONS_ENDPOINT ++ "/" ++ toString (20 : Int) ++ "/" then
    .ok (.obj [("id", .num 20), ("plain_text", .str "t")])
  else .ok clusterRawEx

/-- Witness for C2: one failed sub-opinion fetch is reported in
`opinion_errors` while the cluster call still succeeds with the surviving
opinions, and the non-matching URI is skipped. -/
theorem get_cluster_partial_failure_witness :
    ∃ c : Cluster,
      (courtlistener_get_cluster 123 true "plain_text" clusterUpEx).1 = .ok c ∧
      c.opinions =
        ((jsonElems (pythonOrD (pyGet clusterRawEx "sub_opinions") (.arr []))).filterMap
            (fun u => _regex_id_search "/opinions/" (pyStr u))).filterMap
          (fun i => (courtlistener_get_opinion (Int.ofNat i) "plain_text" clusterUpEx).toOption) ∧
      c.opinion_errors.getD [] =
        ((jsonElems (pythonOrD (pyGet clusterRawEx "sub_opinions") (.arr []))).filterMap
            (fun u => _regex_id_search "/opinions/" (pyStr u))).filterMap
          (fun i =>
            match courtlistener_get_opinion (Int.ofNat i) "plain_text" clusterUpEx with
            | .error e => some ⟨i, e⟩
            | .ok _ => none) :=
  get_cluster_partial_failure 123 "plain_text" clusterUpEx clusterRawEx (by decide) rfl

example :
    ((jsonElems (pythonOrD (pyGet clusterRawEx "sub_opinions") (.arr []))).filterMap
      (fun u => _regex_id_search "/opinions/" (pyStr u))) = [10, 20] := by decide

/-- C7: an empty or whitespace-only URL fails immediately with no upstream
request; a non-empty URL not matching `/opinion/<digits>/` fails with the
unsupported-format error and no upstream request; on a match the handler
returns resolved_type "cluster", the extracted digits as the cluster id, and
the cluster fetched for that id; and every successful call arises from such a
match. -/
theorem resolve_from_url_spec :
    (∀ url inc fmt (upstream : Upstream), pyStrip url = "" →
        courtlistener_resolve_from_url url inc fmt upstream = (.error "url is required", 0)) ∧
    (∀ url inc fmt (upstream : Upstream), pyStrip url ≠ "" →
        _regex_id_search "/opinion/" url = none →
        courtlistener_resolve_from_url url inc fmt upstream =
          (.error "Unsupported URL format. Expected a CourtListener /opinion/<cluster_id>/ URL.",
           0)) ∧
    (∀ url inc fmt (upstream : Upstream) cid c n, pyStrip url ≠ "" →
        _regex_id_search "/opinion/" url = some cid →
        courtlistener_get_cluster ((cid : Nat) : Int) inc fmt upstream = (.ok c, n) →
        courtlistener_resolve_from_url url inc fmt upstream =
          (.ok { resolved_type := "cluster", cluster_id := ((cid : Nat) : Int), result := c }, n)) ∧
    (∀ url inc fmt (upstream : Upstream) r n,
        courtlistener_resolve_from_url url inc fmt upstream = (.ok r, n) →
        ∃ cid, _regex_id_search "/opinion/" url = some cid ∧
          r.resolved_type = "cluster" ∧ r.cluster_id = ((cid : Nat) : Int) ∧
          (courtlistener_get_cluster ((cid : Nat) : Int) inc fmt upstream).1 = .ok r.result) := by
  refine ⟨?_, ?_, ?_, ?_⟩
  · intro url inc fmt upstream h
    simp [courtlistener_resolve_from_url, h]
  · intro url inc fmt upstream hq hm
    have h1 : ¬(url = "" ∨ pyStrip url = "") := by
      rintro (h | h)
      · exact hq (by rw [h]; rfl)
      · exact hq h
    simp [courtlistener_resolve_from_url, h1, hm]
  · intro url inc fmt upstream cid c n hq hm hcl
    have h1 : ¬(url = "" ∨ pyStrip url = "") := by
      rintro (h | h)
      · exact hq (by rw [h]; rfl)
      · exact hq h
    simp [courtlistener_resolve_from_url, h1, hm, hcl]
  · intro url inc fmt upstream r n hok
    by_cases h1 : url = "" ∨ pyStrip url = ""
    · simp [courtlistener_resolve_from_url, h1] at hok
    · cases hm : _regex_id_search "/opinion/" url with
      | none => simp [courtlistener_resolve_from_url, h1, hm] at hok
      | some cid =>
          refine ⟨cid, rfl, ?_⟩
          cases hcl : courtlistener_get_cluster ((cid : Nat) : Int) inc fmt upstream with
          | mk res m =>
              cases res with
              | error e => simp [courtlistener_resolve_from_url, h1, hm, hcl] at hok
              | ok c =>
                  simp [courtlistener_resolve_from_url, h1, hm, hcl] at hok
                  rcases hok with ⟨hr, hn⟩
                  rw [← hr]
                  exact ⟨rfl, rfl, by simp [hcl]⟩

/-- Witness for C7: a whitespace URL and an unsupported URL fail with no
upstream call, and a matching URL resolves to the cluster fetched for the
extracted id. -/
theorem resolve_from_url_spec_witness :
    courtlistener_resolve_from_url "   " true "plain_text" (fun _ _ => .ok (.obj [])) =
      (.error "url is required", 0) ∧
    courtlistener_resolve_from_url "https://host/invalid" true "plain_text"
        (fun _ _ => .ok (.obj [])) =
      (.error "Unsupported URL format. Expected a CourtListener /opinion/<cluster_id>/ URL.",
       0) ∧
    courtlistener_resolve_from_url "https://host/opinion/2812209/slug" false "plain_text"
        (fun _ _ => .ok (.obj [])) =
      (.ok { resolved_type := "cluster", cluster_id := ((2812209 : Nat) : Int),
             result := _cluster_base (.obj []) }, 1) :=
  ⟨resolve_from_url_spec.1 "   " true "plain_text" _ (by decide),
   resolve_from_url_spec.2.1 "https://host/invalid" true "plain_text" _ (by decide) rfl,
   resolve_from_url_spec.2.2.1 "https://host/opinion/2812209/slug" false "plain_text" _
     2812209 (_cluster_base (.obj [])) 1 (by decide) rfl rfl⟩
